import Mathlib

/-!
Shallow embedding of the rivet-layout calculator (`Riverter.py`).

Machine floats are modelled as exact rationals, Python `int`s as `ℤ`,
Python strings as `String` / `List Char`.  Each Python function of the
source is translated to a Lean definition of the same name; the theorems
at the end of the file settle the specification claims against these
definitions.
-/

namespace Riverter

/-- The fixed standard rivet size catalog (inches), ascending, from
`nearest_rivet_size` in the source. -/
def standard_rivets : List ℚ := [1/16, 3/32, 1/8, 5/32, 3/16, 7/32, 1/4]

/-- One step of the minimum-by-key scan performed by the Python builtin
`min(xs, key=lambda x: abs(x - D_target))`: the accumulator is replaced only
when the new candidate has a strictly smaller key, so the first-seen minimum
wins on ties. -/
def minStep (t a x : ℚ) : ℚ := if |x - t| < |a - t| then x else a

/-- Round `D_target` to the nearest standard rivet size: Python
`min(standard_rivets, key=lambda x: abs(x - D_target))` (first-seen wins
on ties). -/
def nearest_rivet_size (D_target : ℚ) : ℚ :=
  match standard_rivets with
  | [] => 0
  | h :: rest => rest.foldl (minStep D_target) h

/-- The record returned by `rivet_layout` (the Python dict, one field per key). -/
structure LayoutResult where
  thickness : ℚ
  target_diameter : ℚ
  chosen_diameter : ℚ
  edge_distance : ℚ
  spacing_multiplier : ℚ
  nominal_spacing : ℚ
  actual_spacing_length : ℚ
  actual_spacing_width : ℚ
  rivets_along_length : ℤ
  rivets_along_width : ℤ
  total_rivets : ℤ
  recommended_length : ℚ
  deriving DecidableEq, Repr

/-- Compute the rivet layout, exactly as the source: target diameter from
thickness, rounded to the catalog; edge distance and nominal spacing from the
multipliers; per-side counts by floor division clamped to at least 1; actual
spacing only when more than one rivet fits; corner rivets counted once. -/
def rivet_layout (length width thickness spacing_mult edge_mult : ℚ) : LayoutResult :=
  let D_target := 3 * thickness
  let D := nearest_rivet_size D_target
  let edge_distance := edge_mult * D
  let nominal_spacing := spacing_mult * D
  let effective_length := length - 2 * edge_distance
  let effective_width := width - 2 * edge_distance
  let n_length := max 1 (⌊effective_length / nominal_spacing⌋ + 1)
  let n_width := max 1 (⌊effective_width / nominal_spacing⌋ + 1)
  let actual_spacing_length := if n_length > 1 then effective_length / ((n_length : ℚ) - 1) else 0
  let actual_spacing_width := if n_width > 1 then effective_width / ((n_width : ℚ) - 1) else 0
  let total_rivets := 2 * n_length + 2 * n_width - 4
  let recommended_length := thickness + 1/16
  { thickness := thickness
    target_diameter := D_target
    chosen_diameter := D
    edge_distance := edge_distance
    spacing_multiplier := spacing_mult
    nominal_spacing := nominal_spacing
    actual_spacing_length := actual_spacing_length
    actual_spacing_width := actual_spacing_width
    rivets_along_length := n_length
    rivets_along_width := n_width
    total_rivets := total_rivets
    recommended_length := recommended_length }

/-! ### Unfolding lemmas for the fields of `rivet_layout` -/

lemma rivet_layout_target_diameter (L W T s e : ℚ) :
    (rivet_layout L W T s e).target_diameter = 3 * T := rfl

lemma rivet_layout_chosen_diameter (L W T s e : ℚ) :
    (rivet_layout L W T s e).chosen_diameter = nearest_rivet_size (3 * T) := rfl

lemma rivet_layout_edge_distance (L W T s e : ℚ) :
    (rivet_layout L W T s e).edge_distance = e * nearest_rivet_size (3 * T) := rfl

lemma rivet_layout_nominal_spacing (L W T s e : ℚ) :
    (rivet_layout L W T s e).nominal_spacing = s * nearest_rivet_size (3 * T) := rfl

lemma rivet_layout_rivets_along_length (L W T s e : ℚ) :
    (rivet_layout L W T s e).rivets_along_length =
      max 1 (⌊(L - 2 * (e * nearest_rivet_size (3 * T))) /
        (s * nearest_rivet_size (3 * T))⌋ + 1) := rfl

lemma rivet_layout_rivets_along_width (L W T s e : ℚ) :
    (rivet_layout L W T s e).rivets_along_width =
      max 1 (⌊(W - 2 * (e * nearest_rivet_size (3 * T))) /
        (s * nearest_rivet_size (3 * T))⌋ + 1) := rfl

lemma rivet_layout_actual_spacing_length (L W T s e : ℚ) :
    (rivet_layout L W T s e).actual_spacing_length =
      if (rivet_layout L W T s e).rivets_along_length > 1 then
        (L - 2 * (e * nearest_rivet_size (3 * T))) /
          (((rivet_layout L W T s e).rivets_along_length : ℚ) - 1)
      else 0 := rfl

lemma rivet_layout_actual_spacing_width (L W T s e : ℚ) :
    (rivet_layout L W T s e).actual_spacing_width =
      if (rivet_layout L W T s e).rivets_along_width > 1 then
        (W - 2 * (e * nearest_rivet_size (3 * T))) /
          (((rivet_layout L W T s e).rivets_along_width : ℚ) - 1)
      else 0 := rfl

lemma rivet_layout_total_rivets (L W T s e : ℚ) :
    (rivet_layout L W T s e).total_rivets =
      2 * (rivet_layout L W T s e).rivets_along_length +
        2 * (rivet_layout L W T s e).rivets_along_width - 4 := rfl

lemma rivet_layout_recommended_length (L W T s e : ℚ) :
    (rivet_layout L W T s e).recommended_length = T + 1/16 := rfl

/-- Rewrites the comparison of absolute values in `minStep` into a comparison
of squares, so that concrete instances evaluate by `norm_num`. -/
lemma minStep_eval (t a x : ℚ) :
    minStep t a x = if (x - t) * (x - t) < (a - t) * (a - t) then x else a := by
  simp only [minStep, abs_lt_iff_mul_self_lt]

/-! ### The minimum-by-key scan: specification of `List.foldl (minStep t)` -/

/-- Invariant of the Python `min(…, key=…)` scan: starting from `a` below a
sorted list `l`, the fold returns an element of `a :: l` whose key
`|· - t|` is minimal, and on key ties the earliest (hence smallest) element
wins. -/
theorem foldl_minStep_spec (t : ℚ) :
    ∀ (l : List ℚ) (a : ℚ), (∀ y ∈ l, a ≤ y) → l.Sorted (· ≤ ·) →
      (l.foldl (minStep t) a = a ∨ l.foldl (minStep t) a ∈ l) ∧
      |l.foldl (minStep t) a - t| ≤ |a - t| ∧
      (∀ y ∈ l, |l.foldl (minStep t) a - t| ≤ |y - t|) ∧
      (|l.foldl (minStep t) a - t| = |a - t| → l.foldl (minStep t) a = a) ∧
      (∀ y ∈ l, |l.foldl (minStep t) a - t| = |y - t| → l.foldl (minStep t) a ≤ y) := by
  intro l
  induction l with
  | nil =>
      intro a _ _
      exact ⟨Or.inl rfl, le_refl _, by simp, fun _ => rfl, by simp⟩
  | cons x l ih =>
      intro a ha hs
      have hxl : ∀ y ∈ l, x ≤ y := (List.sorted_cons.mp hs).1
      have hls : l.Sorted (· ≤ ·) := (List.sorted_cons.mp hs).2
      have hfold : (x :: l).foldl (minStep t) a = l.foldl (minStep t) (minStep t a x) := rfl
      by_cases h : |x - t| < |a - t|
      · have hstep : minStep t a x = x := if_pos h
        obtain ⟨mem, le_x, le_all, eq_x, tie⟩ := ih x hxl hls
        rw [hfold, hstep]
        refine ⟨?_, ?_, ?_, ?_, ?_⟩
        · rcases mem with h' | h'
          · exact Or.inr (by rw [h']; exact List.mem_cons_self x l)
          · exact Or.inr (List.mem_cons_of_mem x h')
        · exact le_x.trans h.le
        · intro y hy
          rcases List.mem_cons.mp hy with rfl | hy'
          · exact le_x
          · exact le_all y hy'
        · intro heq
          exact absurd heq (ne_of_lt (lt_of_le_of_lt le_x h))
        · intro y hy heq
          rcases List.mem_cons.mp hy with rfl | hy'
          · exact (eq_x heq).le
          · exact tie y hy' heq
      · have hstep : minStep t a x = a := if_neg h
        have hax : |a - t| ≤ |x - t| := not_lt.mp h
        have hal : ∀ y ∈ l, a ≤ y := fun y hy => ha y (List.mem_cons_of_mem x hy)
        obtain ⟨mem, le_a, le_all, eq_a, tie⟩ := ih a hal hls
        rw [hfold, hstep]
        refine ⟨?_, ?_, ?_, ?_, ?_⟩
        · rcases mem with h' | h'
          · exact Or.inl h'
          · exact Or.inr (List.mem_cons_of_mem x h')
        · exact le_a
        · intro y hy
          rcases List.mem_cons.mp hy with rfl | hy'
          · exact le_a.trans hax
          · exact le_all y hy'
        · exact eq_a
        · intro y hy heq
          rcases List.mem_cons.mp hy with rfl | hy'
          · have h1 : |l.foldl (minStep t) a - t| = |a - t| :=
              le_antisymm le_a (by rw [heq]; exact hax)
            rw [eq_a h1]
            exact ha y (List.mem_cons_self y l)
          · exact tie y hy' heq

/-- The `nearest_rivet_size` scan is the fold over the tail of the catalog
starting from its head. -/
lemma nearest_rivet_size_eq_foldl (t : ℚ) :
    nearest_rivet_size t =
      List.foldl (minStep t) (1/16) [3/32, 1/8, 5/32, 3/16, 7/32, 1/4] := rfl

/-- The result of `nearest_rivet_size` is a member of the catalog. -/
lemma nearest_rivet_size_mem (t : ℚ) : nearest_rivet_size t ∈ standard_rivets := by
  have h := foldl_minStep_spec t [3/32, 1/8, 5/32, 3/16, 7/32, 1/4] (1/16)
    (by norm_num) (by norm_num [List.sorted_cons])
  rw [nearest_rivet_size_eq_foldl]
  rcases h.1 with h' | h'
  · rw [h']; simp [standard_rivets]
  · simp only [standard_rivets]
    exact List.mem_cons_of_mem _ h'

/-- The result of `nearest_rivet_size` minimizes `|· - t|` over the catalog. -/
lemma nearest_rivet_size_min (t : ℚ) :
    ∀ c ∈ standard_rivets, |nearest_rivet_size t - t| ≤ |c - t| := by
  have h := foldl_minStep_spec t [3/32, 1/8, 5/32, 3/16, 7/32, 1/4] (1/16)
    (by norm_num) (by norm_num [List.sorted_cons])
  intro c hc
  rw [nearest_rivet_size_eq_foldl]
  simp only [standard_rivets, List.mem_cons, List.not_mem_nil, or_false] at hc
  rcases hc with rfl | hc'
  · exact h.2.1
  · exact h.2.2.1 c (by simpa using hc')

/-- On key ties the result of `nearest_rivet_size` is the smaller (first-seen)
catalog member. -/
lemma nearest_rivet_size_tie (t : ℚ) :
    ∀ c ∈ standard_rivets, |c - t| = |nearest_rivet_size t - t| →
      nearest_rivet_size t ≤ c := by
  have h := foldl_minStep_spec t [3/32, 1/8, 5/32, 3/16, 7/32, 1/4] (1/16)
    (by norm_num) (by norm_num [List.sorted_cons])
  intro c hc heq
  rw [nearest_rivet_size_eq_foldl] at heq ⊢
  simp only [standard_rivets, List.mem_cons, List.not_mem_nil, or_false] at hc
  rcases hc with rfl | hc'
  · exact le_of_eq (h.2.2.2.1 heq.symm)
  · exact h.2.2.2.2 c (by simpa using hc') heq.symm

/-- Every catalog member is positive. -/
lemma standard_rivets_pos : ∀ c ∈ standard_rivets, 0 < c := by
  intro c hc
  simp only [standard_rivets, List.mem_cons, List.not_mem_nil, or_false] at hc
  rcases hc with rfl | rfl | rfl | rfl | rfl | rfl | rfl <;> norm_num

/-- The chosen diameter is positive, whatever the target. -/
lemma nearest_rivet_size_pos (t : ℚ) : 0 < nearest_rivet_size t :=
  standard_rivets_pos _ (nearest_rivet_size_mem t)

/-! ### Division-guarded variant of the layout computation

Python raises `ZeroDivisionError` when a divisor is zero; `rivet_layoutChecked`
makes every division of the source explicit through `safeDiv`, returning
`none` exactly when some division of the source would raise. -/

/-- Division that fails (like Python) instead of defaulting to zero. -/
def safeDiv (a b : ℚ) : Option ℚ := if b = 0 then none else some (a / b)

/-- `rivet_layout` with every division guarded: `none` exactly when the
source would raise `ZeroDivisionError`. -/
def rivet_layoutChecked (length width thickness spacing_mult edge_mult : ℚ) :
    Option LayoutResult := do
  let D_target := 3 * thickness
  let D := nearest_rivet_size D_target
  let edge_distance := edge_mult * D
  let nominal_spacing := spacing_mult * D
  let effective_length := length - 2 * edge_distance
  let effective_width := width - 2 * edge_distance
  let ql ← safeDiv effective_length nominal_spacing
  let qw ← safeDiv effective_width nominal_spacing
  let n_length := max 1 (⌊ql⌋ + 1)
  let n_width := max 1 (⌊qw⌋ + 1)
  let actual_spacing_length ←
    if n_length > 1 then safeDiv effective_length ((n_length : ℚ) - 1) else pure 0
  let actual_spacing_width ←
    if n_width > 1 then safeDiv effective_width ((n_width : ℚ) - 1) else pure 0
  let total_rivets := 2 * n_length + 2 * n_width - 4
  let recommended_length := thickness + 1/16
  pure
    { thickness := thickness
      target_diameter := D_target
      chosen_diameter := D
      edge_distance := edge_distance
      spacing_multiplier := spacing_mult
      nominal_spacing := nominal_spacing
      actual_spacing_length := actual_spacing_length
      actual_spacing_width := actual_spacing_width
      rivets_along_length := n_length
      rivets_along_width := n_width
      total_rivets := total_rivets
      recommended_length := recommended_length }

/-! ### The multiplier parser (`parse_multiplier_input`)

Python strings are modelled as `List Char`; `strip` is `trimChars`, `upper`
maps `Char.toUpper`, and the space removal of `replace(" ", "")` is a filter. -/

/-- Drop leading and trailing whitespace, like Python `str.strip()`. -/
def trimChars (l : List Char) : List Char :=
  ((l.dropWhile Char.isWhitespace).reverse.dropWhile Char.isWhitespace).reverse

/-- The normalization `expr.strip().upper().replace(" ", "")` applied before
the trailing-marker test. -/
def normalizeMult (s : String) : List Char :=
  ((trimChars s.toList).map Char.toUpper).filter (fun c => c ≠ ' ')

/-- The numeric value of a digit string (most significant first). -/
def natOfDigits (l : List Char) : ℕ := l.foldl (fun a c => a * 10 + (c.toNat - 48)) 0

/-- Models the Python builtin `float` on a decimal exponent part: an optional
sign followed by at least one digit. -/
def expVal (l : List Char) : Option ℤ :=
  match l with
  | '+' :: r => if !r.isEmpty && r.all Char.isDigit then some ((natOfDigits r : ℤ)) else none
  | '-' :: r => if !r.isEmpty && r.all Char.isDigit then some (-(natOfDigits r : ℤ)) else none
  | r => if !r.isEmpty && r.all Char.isDigit then some ((natOfDigits r : ℤ)) else none

/-- Models the Python builtin `float` on an unsigned mantissa: digits with an
optional decimal point; at least one digit overall. -/
def mantissaVal (l : List Char) : Option ℚ :=
  let ip := l.takeWhile Char.isDigit
  let rest := l.drop ip.length
  match rest with
  | [] => if ip.isEmpty then none else some ((natOfDigits ip : ℚ))
  | '.' :: fp =>
      if fp.all Char.isDigit && !(ip.isEmpty && fp.isEmpty) then
        some ((natOfDigits ip : ℚ) + (natOfDigits fp : ℚ) / 10 ^ fp.length)
      else none
  | _ => none

/-- Unsigned mantissa with optional exponent marker. -/
def pyFloatCore (l : List Char) : Option ℚ :=
  let m := l.takeWhile (fun c => c != 'e' && c != 'E')
  let rest := l.drop m.length
  match rest with
  | [] => mantissaVal m
  | _ :: ex => do
      let mv ← mantissaVal m
      let ev ← expVal ex
      pure (mv * (10 : ℚ) ^ ev)

/-- Models the Python builtin `float` applied to a string: optional sign, then
digits with optional decimal point and optional exponent.  (The special forms
`inf`, `nan` and digit-group underscores are outside the fragment the program
exercises and are not modelled.)  `none` models the `ValueError` the builtin
raises on a non-numeric string. -/
def pyFloat (l : List Char) : Option ℚ :=
  match trimChars l with
  | '+' :: r => pyFloatCore r
  | '-' :: r => (pyFloatCore r).map (fun v => -v)
  | r => pyFloatCore r

/-- The two `ValueError` sites reachable from `parse_multiplier_input`: the
explicit raise when the trailing marker is absent, and the error raised by
`float` itself when the prefix is not numeric. -/
inductive ParseFailure where
  | missingMarker
  | badNumber
  deriving DecidableEq, Repr

/-- `parse_multiplier_input`: normalize, require the trailing letter `D`,
strip it and convert the prefix with `float`. -/
def parse_multiplier_input (expr : String) : Except ParseFailure ℚ :=
  let e := normalizeMult expr
  if e.getLast? = some 'D' then
    match pyFloat e.dropLast with
    | some v => Except.ok v
    | none => Except.error ParseFailure.badNumber
  else Except.error ParseFailure.missingMarker

/-! ### The question answerer (`explain`)

The source interpolates fields of the layout record into answer strings; the
decimal formatting of the interpolation is abstracted away: `explain` returns
an `Answer` value recording which template was selected and which record
fields it reports. -/

/-- One answer template of `explain`, together with the record fields it
interpolates. -/
inductive Answer where
  | diameter (target chosen : ℚ)
  | edge (d : ℚ)
  | spacing (mult nominal along_length along_width : ℚ)
  | total (n : ℤ)
  | alongLength (n : ℤ)
  | alongWidth (n : ℤ)
  | shank (len : ℚ)
  | formula
  | fallback
  deriving DecidableEq, Repr

/-- Python substring test `w in q` on character lists. -/
def containsSub (w : List Char) : List Char → Bool
  | [] => w.isEmpty
  | c :: t => w.isPrefixOf (c :: t) || containsSub w t

/-- Python `any(word in q for word in ws)`. -/
def hasAny (q : List Char) (ws : List String) : Bool :=
  ws.any (fun w => containsSub w.toList q)

def kwDiameter : List String := ["diameter", "rivet size", "how big", "rivet width"]
def kwEdge : List String := ["edge", "margin", "distance from edge"]
def kwSpacing : List String := ["spacing", "gap", "between rivets"]
def kwTotal : List String := ["how many rivets", "number of rivets", "total rivets"]
def kwAlongLength : List String := ["length rivets", "along length"]
def kwAlongWidth : List String := ["width rivets", "along width"]
def kwShank : List String := ["rivet length", "shank"]
def kwFormula : List String := ["how", "why", "calculated", "formula"]

/-- Every keyword of every category, in priority order. -/
def allKeywords : List String :=
  kwDiameter ++ kwEdge ++ kwSpacing ++ kwTotal ++
    kwAlongLength ++ kwAlongWidth ++ kwShank ++ kwFormula

/-- `explain(details, question)`: lower-case the question, test the fixed
keyword sets in priority order, first match wins, static fallback otherwise. -/
def explain (details : LayoutResult) (question : String) : Answer :=
  let q := question.toList.map Char.toLower
  if hasAny q kwDiameter then
    Answer.diameter details.target_diameter details.chosen_diameter
  else if hasAny q kwEdge then
    Answer.edge details.edge_distance
  else if hasAny q kwSpacing then
    Answer.spacing details.spacing_multiplier details.nominal_spacing
      details.actual_spacing_length details.actual_spacing_width
  else if hasAny q kwTotal then
    Answer.total details.total_rivets
  else if hasAny q kwAlongLength then
    Answer.alongLength details.rivets_along_length
  else if hasAny q kwAlongWidth then
    Answer.alongWidth details.rivets_along_width
  else if hasAny q kwShank then
    Answer.shank details.recommended_length
  else if hasAny q kwFormula then
    Answer.formula
  else
    Answer.fallback

/-- A keyword set drawn from `allKeywords` matches nothing when no keyword of
`allKeywords` occurs in the question. -/
lemma hasAny_false (q : List Char) (ws : List String)
    (hsub : ∀ w ∈ ws, w ∈ allKeywords)
    (h : ∀ w ∈ allKeywords, containsSub w.toList q = false) :
    hasAny q ws = false := by
  rw [hasAny, Bool.eq_false_iff]
  intro hc
  rw [List.any_eq_true] at hc
  obtain ⟨w, hw, hcw⟩ := hc
  rw [h w (hsub w hw)] at hcw
  exact Bool.false_ne_true hcw

/-! ## The claims -/

/-- C1: for length 10, width 5, thickness 1/10, spacing multiplier 4 and edge
multiplier 2 (inches), `rivet_layout` produces target diameter 3/10, chosen
diameter 1/4, edge distance 1/2, nominal spacing 1, effective length 9 with
10 rivets along the length, effective width 4 with 5 rivets along the width,
and 26 rivets in total. -/
theorem claim_C1 :
    (rivet_layout 10 5 (1/10) 4 2).target_diameter = 3/10 ∧
    (rivet_layout 10 5 (1/10) 4 2).chosen_diameter = 1/4 ∧
    (rivet_layout 10 5 (1/10) 4 2).edge_distance = 1/2 ∧
    (rivet_layout 10 5 (1/10) 4 2).nominal_spacing = 1 ∧
    10 - 2 * (rivet_layout 10 5 (1/10) 4 2).edge_distance = 9 ∧
    (rivet_layout 10 5 (1/10) 4 2).rivets_along_length = 10 ∧
    5 - 2 * (rivet_layout 10 5 (1/10) 4 2).edge_distance = 4 ∧
    (rivet_layout 10 5 (1/10) 4 2).rivets_along_width = 5 ∧
    (rivet_layout 10 5 (1/10) 4 2).total_rivets = 26 := by
  simp only [rivet_layout, nearest_rivet_size, standard_rivets, List.foldl, minStep_eval]
  norm_num [max_def]

/-- C2: for every positive target, `nearest_rivet_size` returns a catalog
member minimizing the absolute difference to the target, returning the
smaller of two equidistant candidates; in particular it maps 9/100 to 3/32
and the midpoint 13/64 to 3/16. -/
theorem claim_C2 (t : ℚ) (ht : 0 < t) :
    nearest_rivet_size t ∈ standard_rivets ∧
    (∀ c ∈ standard_rivets, |nearest_rivet_size t - t| ≤ |c - t|) ∧
    (∀ c ∈ standard_rivets, |c - t| = |nearest_rivet_size t - t| →
      nearest_rivet_size t ≤ c) ∧
    nearest_rivet_size (9/100) = 3/32 ∧
    nearest_rivet_size (13/64) = 3/16 :=
  ⟨nearest_rivet_size_mem t, nearest_rivet_size_min t, nearest_rivet_size_tie t,
    by simp only [nearest_rivet_size, standard_rivets, List.foldl, minStep_eval]; norm_num,
    by simp only [nearest_rivet_size, standard_rivets, List.foldl, minStep_eval]; norm_num⟩

/-- Witness for C2 at the concrete target 1. -/
theorem claim_C2_witness :
    (0 : ℚ) < 1 ∧ nearest_rivet_size (13/64) = 3/16 :=
  ⟨by decide, (claim_C2 1 (by decide)).2.2.2.2⟩

/-- C3: on positive inputs the layout computation performs no division by
zero: the division-guarded variant succeeds and agrees with `rivet_layout`,
and the nominal spacing is positive, even on degenerate geometry. -/
theorem claim_C3 (L W T s e : ℚ) (hL : 0 < L) (hW : 0 < W) (hT : 0 < T)
    (hs : 0 < s) (he : 0 < e) :
    0 < (rivet_layout L W T s e).nominal_spacing ∧
    rivet_layoutChecked L W T s e = some (rivet_layout L W T s e) := by
  have hD : 0 < nearest_rivet_size (3 * T) := nearest_rivet_size_pos _
  have hns : 0 < s * nearest_rivet_size (3 * T) := mul_pos hs hD
  constructor
  · rw [rivet_layout_nominal_spacing]; exact hns
  · rw [rivet_layoutChecked, rivet_layout]
    simp only [safeDiv, if_neg (ne_of_gt hns), Option.bind_eq_bind, Option.some_bind]
    generalize ⌊(L - 2 * (e * nearest_rivet_size (3 * T))) /
      (s * nearest_rivet_size (3 * T))⌋ = A
    generalize ⌊(W - 2 * (e * nearest_rivet_size (3 * T))) /
      (s * nearest_rivet_size (3 * T))⌋ = B
    have key : ∀ n : ℤ, max 1 (n + 1) > 1 → ¬((max 1 (n + 1) : ℤ) : ℚ) - 1 = 0 := by
      intro n hn
      have h1 : (1 : ℚ) < ((max 1 (n + 1) : ℤ) : ℚ) := by exact_mod_cast hn
      exact sub_ne_zero.mpr (ne_of_gt h1)
    by_cases h1 : max (1 : ℤ) (A + 1) > 1 <;> by_cases h2 : max (1 : ℤ) (B + 1) > 1
    · simp only [if_pos h1, if_pos h2, if_neg (key A h1), if_neg (key B h2),
        Option.some_bind, Option.pure_def]
    · simp only [if_pos h1, if_neg h2, if_neg (key A h1), Option.some_bind, Option.pure_def]
    · simp only [if_neg h1, if_pos h2, if_neg (key B h2), Option.some_bind, Option.pure_def]
    · simp only [if_neg h1, if_neg h2, Option.some_bind, Option.pure_def]

/-- Witness for C3 at the concrete inputs of the end-to-end example (with an
integral thickness to keep the literals closed). -/
theorem claim_C3_witness :
    (0 : ℚ) < 10 ∧ (0 : ℚ) < 5 ∧ (0 : ℚ) < 1 ∧ (0 : ℚ) < 4 ∧ (0 : ℚ) < 2 ∧
    rivet_layoutChecked 10 5 1 4 2 = some (rivet_layout 10 5 1 4 2) :=
  ⟨by decide, by decide, by decide, by decide, by decide,
    (claim_C3 10 5 1 4 2 (by decide) (by decide) (by decide) (by decide) (by decide)).2⟩

/-- C4: on positive inputs both per-side rivet counts are at least 1 and the
total rivet count is a non-negative integer. -/
theorem claim_C4 (L W T s e : ℚ) (hL : 0 < L) (hW : 0 < W) (hT : 0 < T)
    (hs : 0 < s) (he : 0 < e) :
    1 ≤ (rivet_layout L W T s e).rivets_along_length ∧
    1 ≤ (rivet_layout L W T s e).rivets_along_width ∧
    0 ≤ (rivet_layout L W T s e).total_rivets := by
  have h1 : 1 ≤ (rivet_layout L W T s e).rivets_along_length := by
    rw [rivet_layout_rivets_along_length]; exact le_max_left _ _
  have h2 : 1 ≤ (rivet_layout L W T s e).rivets_along_width := by
    rw [rivet_layout_rivets_along_width]; exact le_max_left _ _
  have h3 := rivet_layout_total_rivets L W T s e
  exact ⟨h1, h2, by omega⟩

/-- Witness for C4 at the end-to-end example inputs. -/
theorem claim_C4_witness :
    (0 : ℚ) < 10 ∧ (0 : ℚ) < 5 ∧ (0 : ℚ) < 1 ∧ (0 : ℚ) < 4 ∧ (0 : ℚ) < 2 ∧
    0 ≤ (rivet_layout 10 5 1 4 2).total_rivets :=
  ⟨by decide, by decide, by decide, by decide, by decide,
    (claim_C4 10 5 1 4 2 (by decide) (by decide) (by decide) (by decide) (by decide)).2.2⟩

/-- C5: on positive inputs the chosen diameter is a member of the fixed
standard-size catalog. -/
theorem claim_C5 (L W T s e : ℚ) (hL : 0 < L) (hW : 0 < W) (hT : 0 < T)
    (hs : 0 < s) (he : 0 < e) :
    (rivet_layout L W T s e).chosen_diameter ∈ standard_rivets := by
  rw [rivet_layout_chosen_diameter]
  exact nearest_rivet_size_mem _

/-- Witness for C5 at the end-to-end example inputs. -/
theorem claim_C5_witness :
    (0 : ℚ) < 10 ∧ (rivet_layout 10 5 1 4 2).chosen_diameter ∈ standard_rivets :=
  ⟨by decide,
    claim_C5 10 5 1 4 2 (by decide) (by decide) (by decide) (by decide) (by decide)⟩

/-- C7: a side with a single rivet reports actual spacing 0; a side with more
than one rivet reports the effective dimension divided by (count - 1). -/
theorem claim_C7 (L W T s e : ℚ) (hL : 0 < L) (hW : 0 < W) (hT : 0 < T)
    (hs : 0 < s) (he : 0 < e) :
    ((rivet_layout L W T s e).rivets_along_length = 1 →
      (rivet_layout L W T s e).actual_spacing_length = 0) ∧
    ((rivet_layout L W T s e).rivets_along_width = 1 →
      (rivet_layout L W T s e).actual_spacing_width = 0) ∧
    (1 < (rivet_layout L W T s e).rivets_along_length →
      (rivet_layout L W T s e).actual_spacing_length =
        (L - 2 * (rivet_layout L W T s e).edge_distance) /
          (((rivet_layout L W T s e).rivets_along_length : ℚ) - 1)) ∧
    (1 < (rivet_layout L W T s e).rivets_along_width →
      (rivet_layout L W T s e).actual_spacing_width =
        (W - 2 * (rivet_layout L W T s e).edge_distance) /
          (((rivet_layout L W T s e).rivets_along_width : ℚ) - 1)) := by
  refine ⟨?_, ?_, ?_, ?_⟩
  · intro h
    rw [rivet_layout_actual_spacing_length, if_neg (by omega)]
  · intro h
    rw [rivet_layout_actual_spacing_width, if_neg (by omega)]
  · intro h
    rw [rivet_layout_actual_spacing_length, if_pos h, rivet_layout_edge_distance]
  · intro h
    rw [rivet_layout_actual_spacing_width, if_pos h, rivet_layout_edge_distance]

/-- Witness for C7 at the end-to-end example inputs. -/
theorem claim_C7_witness :
    (0 : ℚ) < 10 ∧
    (1 < (rivet_layout 10 5 1 4 2).rivets_along_length →
      (rivet_layout 10 5 1 4 2).actual_spacing_length =
        (10 - 2 * (rivet_layout 10 5 1 4 2).edge_distance) /
          (((rivet_layout 10 5 1 4 2).rivets_along_length : ℚ) - 1)) :=
  ⟨by decide,
    (claim_C7 10 5 1 4 2 (by decide) (by decide) (by decide) (by decide) (by decide)).2.2.1⟩

/-- C8: every catalog member is a fixed point of `nearest_rivet_size`. -/
theorem claim_C8 (t : ℚ) (ht : t ∈ standard_rivets) : nearest_rivet_size t = t := by
  simp only [standard_rivets, List.mem_cons, List.not_mem_nil, or_false] at ht
  rcases ht with rfl | rfl | rfl | rfl | rfl | rfl | rfl <;>
    (simp only [nearest_rivet_size, standard_rivets, List.foldl, minStep_eval]; norm_num)

/-- Witness for C8 at the catalog member 1/8. -/
theorem claim_C8_witness :
    (1/8 : ℚ) ∈ standard_rivets ∧ nearest_rivet_size (1/8) = 1/8 :=
  ⟨by simp [standard_rivets], claim_C8 (1/8) (by simp [standard_rivets])⟩

/-- C9: the total-rivets question routes to the total-rivets template, the
shank question routes to the shank template, and a question matching no
keyword yields the static fallback. -/
theorem claim_C9 (d : LayoutResult) (q : String) :
    explain d "how many rivets total?" = Answer.total d.total_rivets ∧
    explain d "rivet length" = Answer.shank d.recommended_length ∧
    ((∀ w ∈ allKeywords, containsSub w.toList (q.toList.map Char.toLower) = false) →
      explain d q = Answer.fallback) := by
  refine ⟨rfl, rfl, ?_⟩
  intro h
  have h1 := hasAny_false _ kwDiameter (by decide) h
  have h2 := hasAny_false _ kwEdge (by decide) h
  have h3 := hasAny_false _ kwSpacing (by decide) h
  have h4 := hasAny_false _ kwTotal (by decide) h
  have h5 := hasAny_false _ kwAlongLength (by decide) h
  have h6 := hasAny_false _ kwAlongWidth (by decide) h
  have h7 := hasAny_false _ kwShank (by decide) h
  have h8 := hasAny_false _ kwFormula (by decide) h
  simp only [explain, h1, h2, h3, h4, h5, h6, h7, h8, Bool.false_eq_true, if_false]

/-- Witness for C9: a question with no keyword gets the fallback answer. -/
theorem claim_C9_witness :
    explain (rivet_layout 10 5 1 4 2) "zzz" = Answer.fallback :=
  (claim_C9 (rivet_layout 10 5 1 4 2) "zzz").2.2 (by decide)

/-- C10: on positive inputs the total rivet count equals
2 * (count along length + count along width - 2), hence is even and never 1. -/
theorem claim_C10 (L W T s e : ℚ) (hL : 0 < L) (hW : 0 < W) (hT : 0 < T)
    (hs : 0 < s) (he : 0 < e) :
    (rivet_layout L W T s e).total_rivets =
      2 * ((rivet_layout L W T s e).rivets_along_length +
        (rivet_layout L W T s e).rivets_along_width - 2) ∧
    2 ∣ (rivet_layout L W T s e).total_rivets ∧
    (rivet_layout L W T s e).total_rivets ≠ 1 := by
  have h := rivet_layout_total_rivets L W T s e
  refine ⟨by omega, ⟨(rivet_layout L W T s e).rivets_along_length +
    (rivet_layout L W T s e).rivets_along_width - 2, by omega⟩, by omega⟩

/-- Witness for C10 at the end-to-end example inputs. -/
theorem claim_C10_witness :
    (0 : ℚ) < 10 ∧ 2 ∣ (rivet_layout 10 5 1 4 2).total_rivets :=
  ⟨by decide,
    (claim_C10 10 5 1 4 2 (by decide) (by decide) (by decide) (by decide) (by decide)).2.1⟩

/-- C6 counterexample: the input XD normalizes to a string with the trailing
marker D, yet the parser fails, because the float conversion of the prefix X
itself raises; so failure is not exactly the absence of the marker. -/
theorem claim_C6_counterexample :
    (normalizeMult "XD").getLast? = some 'D' ∧
    parse_multiplier_input "XD" = Except.error ParseFailure.badNumber :=
  ⟨by decide, rfl⟩

/-- C6 amended: after whitespace stripping, upper-casing and space removal,
the parser fails with the marker error exactly when the trailing D is absent;
when the marker is present it succeeds with the numeric value of the prefix
exactly when the prefix parses as a float, and fails otherwise. -/
theorem claim_C6_amended (s : String) :
    (¬ (normalizeMult s).getLast? = some 'D' →
      parse_multiplier_input s = Except.error ParseFailure.missingMarker) ∧
    (∀ v : ℚ, parse_multiplier_input s = Except.ok v ↔
      ((normalizeMult s).getLast? = some 'D' ∧
        pyFloat (normalizeMult s).dropLast = some v)) ∧
    ((normalizeMult s).getLast? = some 'D' →
      pyFloat (normalizeMult s).dropLast = none →
      parse_multiplier_input s = Except.error ParseFailure.badNumber) := by
  refine ⟨?_, ?_, ?_⟩
  · intro h
    rw [parse_multiplier_input, if_neg h]
  · intro v
    constructor
    · intro h
      by_cases hD : (normalizeMult s).getLast? = some 'D'
      · refine ⟨hD, ?_⟩
        rw [parse_multiplier_input, if_pos hD] at h
        cases hm : pyFloat (normalizeMult s).dropLast with
        | none => rw [hm] at h; exact absurd h (by simp)
        | some w =>
            rw [hm] at h
            simp only [Except.ok.injEq] at h
            rw [h]
      · rw [parse_multiplier_input, if_neg hD] at h
        exact absurd h (by simp)
    · rintro ⟨hD, hm⟩
      rw [parse_multiplier_input, if_pos hD, hm]
  · intro hD hm
    rw [parse_multiplier_input, if_pos hD, hm]

/-- Witness for C6: a well-formed multiplier parses to its numeric value, and
a marker-less input fails with the marker error. -/
theorem claim_C6_witness :
    parse_multiplier_input "4D" = Except.ok 4 ∧
    parse_multiplier_input "4" = Except.error ParseFailure.missingMarker :=
  ⟨((claim_C6_amended "4D").2.1 4).mpr ⟨by decide, by decide⟩,
    (claim_C6_amended "4").1 (by decide)⟩

end Riverter
